import Mathlib

/-!
Shallow embedding of the GoPro-CycleSafe-AI pipeline logic.

The repository contains two near-identical Streamlit applications:
  * `cycling_safety_main.py`  (the "basic" variant), and
  * `gopro_cycling_safety.py` (the "enhanced" / GoPro variant).

The embedding below translates the pipeline logic of both variants:
hazard classification from relative bounding-box size, audio threshold
analysis, per-cycle alert emission with detection counters, the bounded
display queue and the unbounded alert queue, the alert-history cap kept
by the aggregation loop, and the per-worker read loops.

External collaborators (OpenCV capture and cascade/YOLO detection, numpy
FFT, sounddevice recording, Streamlit rendering) are modelled by their
outputs: a worker receives the list of detected bounding boxes / the
derived measurements of the audio chunk as inputs.  Real-valued quantities
(relative sizes, RMS, band energies) are modelled over `ℚ`.
-/

namespace CycleSafe

/-- Danger levels used by both variants (the Python code uses the strings
"low", "medium", "high", "critical"). -/
inductive DangerLevel where
  | low
  | medium
  | high
  | critical
deriving DecidableEq, Repr

/-- Numeric severity of a danger level, for stating monotonicity:
low < medium < high < critical. -/
def DangerLevel.toNat : DangerLevel → Nat
  | .low => 0
  | .medium => 1
  | .high => 2
  | .critical => 3

/-- Display string of a danger level, as used by the Python code. -/
def DangerLevel.str : DangerLevel → String
  | .low => "low"
  | .medium => "medium"
  | .high => "high"
  | .critical => "critical"

/-- A bounding box `(x, y, w, h)` as returned by `detectMultiScale` / YOLO. -/
structure BBox where
  x : Nat
  y : Nat
  w : Nat
  h : Nat
deriving DecidableEq, Repr

/-- An annotation drawn onto a frame by `cv2.rectangle` / `cv2.putText`
(`detect_dangers` draws one rectangle plus label per detection, in place). -/
structure Overlay where
  x : Nat
  y : Nat
  w : Nat
  h : Nat
  label : String
deriving DecidableEq, Repr

/-- A video frame: its pixel dimensions (`frame.shape[0]`, `frame.shape[1]`)
together with the annotations that have been drawn onto its buffer.
Drawing is modelled by appending to `overlays`, which makes the in-place
mutation of the numpy buffer by `cv2.rectangle`/`cv2.putText` observable. -/
structure Frame where
  height : Nat
  width : Nat
  overlays : List Overlay
deriving DecidableEq, Repr

/-- A raw detection of the enhanced detector (`detect_with_yolo` output or
the cascade fallback): object class, bounding box, confidence. -/
structure Detection where
  dtype : String
  bbox : BBox
  confidence : ℚ
deriving DecidableEq, Repr

/-- A classified danger entry, as appended to the `dangers` list by
`detect_dangers` in either variant (the basic variant has no
`confidence` key, modelled by `none`). -/
structure Danger where
  dtype : String
  bbox : BBox
  level : DangerLevel
  size : ℚ
  confidence : Option ℚ
deriving DecidableEq, Repr

/-- Relative size of a box inside a frame:
`relative_size = (w * h) / (frame.shape[0] * frame.shape[1])`. -/
def relativeSize (frame : Frame) (b : BBox) : ℚ :=
  (b.w * b.h : ℚ) / (frame.height * frame.width : ℚ)

/-- Danger level of the basic variant (`cycling_safety_main.py`, lines
101-105): `low`, overridden to `high` when `relative_size > 0.3`, else to
`medium` when `relative_size > 0.15`. -/
def basicDangerLevel (relative_size : ℚ) : DangerLevel :=
  if relative_size > 3/10 then .high
  else if relative_size > 15/100 then .medium
  else .low

/-- Danger level of the enhanced variant (`gopro_cycling_safety.py`, lines
277-288): `critical` when `relative_size > 0.35`, else `high` when
`> 0.2`, else `medium` when `> 0.1`, else `low`. -/
def enhancedDangerLevel (relative_size : ℚ) : DangerLevel :=
  if relative_size > 35/100 then .critical
  else if relative_size > 2/10 then .high
  else if relative_size > 1/10 then .medium
  else .low

/-- `CameraDangerDetector.detect_dangers` of the basic variant: given the
frame and the detections of the cascade, build one `vehicle` danger per box and
draw a rectangle plus upper-cased level label onto the frame. Returns the
(mutated) frame and the dangers list, as the Python function does. -/
def CameraDangerDetector.detect_dangers (frame : Frame) (cars : List BBox) :
    Frame × List Danger :=
  let dangers := cars.map (fun b =>
    let relative_size := relativeSize frame b
    { dtype := "vehicle", bbox := b, level := basicDangerLevel relative_size,
      size := relative_size, confidence := none })
  let drawn := cars.map (fun b =>
    { x := b.x, y := b.y, w := b.w, h := b.h,
      label := (basicDangerLevel (relativeSize frame b)).str.toUpper : Overlay })
  ({ frame with overlays := frame.overlays ++ drawn }, dangers)

/-- `EnhancedDangerDetector.detect_dangers` of the GoPro variant: given the
frame, the motion-detector result (`has_motion`, `motion_ratio`, computed
by the stateful MOG2 background subtractor, external) and the raw
detections (YOLO or cascade fallback), classify each detection by relative
size and draw one labelled rectangle per detection, plus a motion
indicator when motion was flagged. -/
def EnhancedDangerDetector.detect_dangers (frame : Frame) (has_motion : Bool)
    ( motion_ratio : ℚ) (detections : List Detection) : Frame × List Danger :=
  let frame_area : ℚ := (frame.height * frame.width : ℚ)
  let dangers := detections.map (fun det =>
    let relative_size := (det.bbox.w * det.bbox.h : ℚ) / frame_area
    { dtype := det.dtype, bbox := det.bbox,
      level := enhancedDangerLevel relative_size,
      size := relative_size, confidence := some det.confidence })
  let drawn := detections.map (fun det =>
    let relative_size := (det.bbox.w * det.bbox.h : ℚ) / frame_area
    { x := det.bbox.x, y := det.bbox.y, w := det.bbox.w, h := det.bbox.h,
      label := det.dtype.toUpper ++ ": " ++
        (enhancedDangerLevel relative_size).str.toUpper : Overlay })
  let motion : List Overlay :=
    if has_motion then
      [{ x := 10, y := 60, w := 0, h := 0,
         label := "MOTION: " ++ toString motion_ratio : Overlay }]
    else []
  ({ frame with overlays := frame.overlays ++ drawn ++ motion }, dangers)

/-!  Audio analysis.

An audio chunk enters analysis through its derived measurements: the RMS
amplitude (`np.sqrt(np.mean(audio_data**2))`) and the spectrum magnitudes
that fall inside the frequency bands of each variant (the FFT itself is numpy,
external; `hornMags` are the magnitudes `np.abs(fft[horn_range])` at the
bins of the band, so `len(horn_range[0]) > 0` is `hornMags ≠ []` and the band
energy is `hornMags.sum`). -/

/-- Measurements of one audio chunk for the basic variant
(`cycling_safety_main.py`): RMS, and the spectrum magnitudes in its horn
band of 400-600 Hz. -/
structure BasicAudioFeatures where
  rms : ℚ
  hornMags : List ℚ
deriving DecidableEq, Repr

/-- Measurements of one audio chunk for the enhanced variant
(`gopro_cycling_safety.py`): RMS, and the spectrum magnitudes inside
`horn_freq_range = (300, 700)` and `siren_freq_range = (800, 1500)`. -/
structure AudioFeatures where
  rms : ℚ
  hornMags : List ℚ
  sirenMags : List ℚ
deriving DecidableEq, Repr

/-- One entry of the `dangers` list built by the enhanced
`AudioDangerDetector.analyze_audio`: `(danger_type, level, intensity)`. -/
structure AudioObservation where
  dtype : String
  level : DangerLevel
  intensity : ℚ
deriving DecidableEq, Repr

/-- Basic-variant `AudioDangerDetector.analyze_audio`
(`cycling_safety_main.py`, lines 129-154).  A single
`(danger_detected, danger_type)` pair is threaded through the checks, so
the horn check overwrites the loud-noise result; returns
`(danger_detected, danger_type, rms)`. -/
def basic_analyze_audio (a : BasicAudioFeatures) : Bool × Option String × ℚ :=
  let rms := a.rms
  let danger_detected := false
  let danger_type : Option String := none
  let (danger_detected, danger_type) :=
    if rms > 3/10 then (true, some "loud_noise")
    else (danger_detected, danger_type)
  let (danger_detected, danger_type) :=
    if a.hornMags.length > 0 ∧ a.hornMags.sum > 1000 then
      (true, some "horn_detected")
    else (danger_detected, danger_type)
  (danger_detected, danger_type, rms)

/-- Enhanced-variant `AudioDangerDetector.analyze_audio`
(`gopro_cycling_safety.py`, lines 319-351): three independent threshold
checks each append their own observation to `dangers`; returns
`(dangers, rms)`. -/
def AudioDangerDetector.analyze_audio (a : AudioFeatures) :
    List AudioObservation × ℚ :=
  let rms := a.rms
  let dangers : List AudioObservation := []
  let dangers :=
    if rms > 25/100 then
      dangers ++ [{ dtype := "loud_noise", level := .high, intensity := rms }]
    else dangers
  let horn_energy := a.hornMags.sum
  let dangers :=
    if a.hornMags.length > 0 ∧ horn_energy > 800 then
      dangers ++ [{ dtype := "horn", level := .critical, intensity := horn_energy }]
    else dangers
  let siren_energy := a.sirenMags.sum
  let dangers :=
    if a.sirenMags.length > 0 ∧ siren_energy > 1000 then
      dangers ++ [{ dtype := "siren", level := .critical, intensity := siren_energy }]
    else dangers
  (dangers, rms)

/-!  Alerts, detection counters, per-cycle alert emission. -/

/-- An alert dict as pushed onto `alert_queue` by a worker
(`time` is `datetime.now().strftime(...)`, external, passed in as `now`). -/
structure Alert where
  time : String
  position : String
  dtype : String
  level : DangerLevel
  message : String
deriving DecidableEq, Repr

/-- The `st.session_state.detection_count` dict, keys
"front", "rear", "audio". -/
structure DetectionCount where
  front : Nat
  rear : Nat
  audio : Nat
deriving DecidableEq, Repr

/-- `st.session_state.detection_count[pos] += 1`. -/
def DetectionCount.bump (c : DetectionCount) (pos : String) : DetectionCount :=
  if pos = "front" then { c with front := c.front + 1 }
  else if pos = "rear" then { c with rear := c.rear + 1 }
  else if pos = "audio" then { c with audio := c.audio + 1 }
  else c

/-- Alert-emission part of one `process_camera` cycle of the basic variant
(`cycling_safety_main.py`, lines 176-185): filter the dangers at level
`high`; when any exist, push a single `vehicle_close` alert at level
`high` and bump the counter of the position once. -/
def process_camera_cycle (now position : String) (dangers : List Danger)
    (counts : DetectionCount) : List Alert × DetectionCount :=
  let high_dangers := dangers.filter (fun d => d.level = DangerLevel.high)
  if high_dangers.isEmpty then ([], counts)
  else
    ([{ time := now, position := position, dtype := "vehicle_close",
        level := .high,
        message := "DANGER: Vehicle approaching from " ++ position ++ "!" }],
     counts.bump position)

/-- Alert-emission part of one `process_gopro_camera` cycle of the enhanced
variant (`gopro_cycling_safety.py`, lines 385-395): filter the dangers at
`critical` or `high`; push one alert per such danger, then bump the
counter of the position once (the increment sits outside the for-loop). -/
def process_gopro_camera_cycle (now position : String) (dangers : List Danger)
    (counts : DetectionCount) : List Alert × DetectionCount :=
  let critical_dangers := dangers.filter
    (fun d => d.level = DangerLevel.critical ∨ d.level = DangerLevel.high)
  if critical_dangers.isEmpty then ([], counts)
  else
    (critical_dangers.map (fun d =>
      { time := now, position := position, dtype := d.dtype, level := d.level,
        message := d.level.str.toUpper ++ ": " ++ d.dtype ++
          " detected from " ++ position ++ "!" }),
     counts.bump position)

/-- One cycle of the basic-variant `record_and_analyze_audio`
(`cycling_safety_main.py`, lines 195-213): when `danger_detected`, push a
single alert at level `medium` and bump the audio counter once. -/
def basic_audio_cycle (now : String) (a : BasicAudioFeatures)
    (counts : DetectionCount) : List Alert × DetectionCount :=
  let danger_detected := (basic_analyze_audio a).1
  let danger_type := (basic_analyze_audio a).2.1
  if danger_detected then
    ([{ time := now, position := "audio", dtype := danger_type.getD "",
        level := .medium,
        message := "Audio Alert: " ++ danger_type.getD "" }],
     counts.bump "audio")
  else ([], counts)

/-- Alert dict built for one audio observation by the enhanced-variant
`record_and_analyze_audio` for-loop body. -/
def gopro_audio_alert (now : String) (d : AudioObservation) : Alert :=
  { time := now, position := "audio", dtype := d.dtype, level := d.level,
    message := d.level.str.toUpper ++ ": " ++ d.dtype ++ " detected!" }

/-- One cycle of the enhanced-variant `record_and_analyze_audio`
(`gopro_cycling_safety.py`, lines 406-422): for every observation in
`dangers`, push its own alert and bump the audio counter — the
`+= 1` sits inside the for-loop, so the counter moves once per
observation. -/
def gopro_audio_cycle (now : String) (a : AudioFeatures)
    (counts : DetectionCount) : List Alert × DetectionCount :=
  let dangers := (AudioDangerDetector.analyze_audio a).1
  dangers.foldl
    (fun acc d => (acc.1 ++ [gopro_audio_alert now d], acc.2.bump "audio"))
    ([], counts)

/-!  Queues.

`queue.Queue(maxsize)` semantics for `put(item)` (the default blocking
put, which is what both variants call): if `maxsize <= 0` the queue is
infinite and the put always succeeds; otherwise the put succeeds while
the queue holds fewer than `maxsize` items and blocks the calling thread
when the queue is full.  A blocked put is modelled as `none`; a completed
put appends the item at the tail (`some (q ++ [a])`). -/

/-- Blocking `Queue.put` of the Python `queue` module (maxsize `0` means
an infinite queue; `none` models the producer blocking on a full queue). -/
def Queue.put (maxsize : Nat) (q : List α) (a : α) : Option (List α) :=
  if maxsize = 0 ∨ q.length < maxsize then some (q ++ [a]) else none

/-- Put a whole sequence of items, failing (blocking) as soon as one put
blocks. -/
def Queue.putAll (maxsize : Nat) (q : List α) (l : List α) : Option (List α) :=
  l.foldl (fun oq a => oq.bind (fun q0 => Queue.put maxsize q0 a)) (some q)

/-- The display channel: `frame_queue = queue.Queue(maxsize=10)` in both
variants. -/
def frame_queue_maxsize : Nat := 10

/-- The alert channel: `alert_queue = queue.Queue()` in both variants —
the Python default `maxsize=0`, an infinite queue. -/
def alert_queue_maxsize : Nat := 0

/-!  Alert history kept by the aggregation (display) loop. -/

/-- One alert arriving at the aggregation loop:
`st.session_state.alerts.insert(0, alert)` followed by
`st.session_state.alerts = st.session_state.alerts[:cap]`
(`cap = 5` in the basic variant, `cap = 3` in the enhanced variant). -/
def insertAlert (cap : Nat) (history : List Alert) (a : Alert) : List Alert :=
  (a :: history).take cap

/-- Draining a batch of alerts from the channel into the history, oldest
first, the way the inner `while not alert_queue.empty()` loop does. -/
def processAlerts (cap : Nat) (history : List Alert) (incoming : List Alert) :
    List Alert :=
  incoming.foldl (insertAlert cap) history

/-!  Worker read loops. -/

/-- Result of one `cap.read()`: `ret, frame` with `ret` false on failure. -/
inductive ReadResult where
  | ok (frame : Frame)
  | fail
deriving DecidableEq, Repr

/-- Frames processed by the basic `process_camera` loop over a finite
schedule of reads (the schedule ending models `st.session_state.running`
flipping to false).  A failed read hits `if not ret: break`: the loop
ends and no later read of this worker is ever seen. -/
def basicWorkerFrames : List ReadResult → List Frame
  | [] => []
  | .fail :: _ => []
  | .ok f :: rest => f :: basicWorkerFrames rest

/-- Frames processed by the enhanced `process_gopro_camera` loop over a
finite schedule of reads.  A failed read hits
`if not ret: time.sleep(0.1); continue`: the worker sleeps and retries,
and the loop keeps consuming later reads. -/
def goproWorkerFrames : List ReadResult → List Frame
  | [] => []
  | .fail :: rest => goproWorkerFrames rest
  | .ok f :: rest => f :: goproWorkerFrames rest

/-!  Concrete fixtures used by the closed theorems below. -/

/-- A 100 x 100 frame with nothing drawn on it. -/
def f100 : Frame := { height := 100, width := 100, overlays := [] }

/-- The same frame with one annotation already on it. -/
def f100marked : Frame :=
  { height := 100, width := 100,
    overlays := [{ x := 0, y := 0, w := 0, h := 0, label := "X" }] }

/-- A 70 x 50 box: exactly 35 percent of a 100 x 100 frame. -/
def box70x50 : BBox := { x := 0, y := 0, w := 70, h := 50 }

/-- A detection whose box covers exactly 35 percent of `f100`. -/
def det70x50 : Detection :=
  { dtype := "vehicle", bbox := box70x50, confidence := 7/10 }

/-- A danger already classified at level `high` (size 36 percent under the
basic thresholds). -/
def highDanger : Danger :=
  { dtype := "vehicle", bbox := { x := 0, y := 0, w := 60, h := 60 },
    level := .high, size := 9/25, confidence := none }

/-- A sample alert used to exercise the queues. -/
def sampleAlert : Alert :=
  { time := "00:00:00", position := "front", dtype := "vehicle_close",
    level := .high, message := "DANGER: Vehicle approaching from front!" }

/-- Zero counters, the initial `detection_count` session state. -/
def countsZero : DetectionCount := { front := 0, rear := 0, audio := 0 }

/-- Enhanced-variant audio measurements crossing all three thresholds:
RMS 0.4 > 0.25, horn energy 900 > 800, siren energy 1100 > 1000. -/
def loudHornSiren : AudioFeatures :=
  { rms := 2/5, hornMags := [900], sirenMags := [1100] }

/-- Basic-variant audio measurements crossing both of its thresholds:
RMS 0.4 > 0.3 and horn energy 2000 > 1000. -/
def loudAndHorn : BasicAudioFeatures := { rms := 2/5, hornMags := [2000] }

/-- A 50 x 50 box: 25 percent of a 100 x 100 frame. -/
def box50 : BBox := { x := 0, y := 0, w := 50, h := 50 }

/-- The alert the basic camera cycle emits for source "front" at time "t". -/
def frontVehicleAlert : Alert :=
  { time := "t", position := "front", dtype := "vehicle_close", level := .high,
    message := "DANGER: Vehicle approaching from front!" }

/-!  Helper lemmas. -/

/-- Componentwise order on detection counters. -/
def DetectionCount.le (c d : DetectionCount) : Prop :=
  c.front ≤ d.front ∧ c.rear ≤ d.rear ∧ c.audio ≤ d.audio

theorem DetectionCount.bump_audio (c : DetectionCount) :
    c.bump "audio" = { c with audio := c.audio + 1 } := by
  unfold DetectionCount.bump
  rw [if_neg (by decide), if_neg (by decide), if_pos rfl]

theorem DetectionCount.le_bump (c : DetectionCount) (pos : String) :
    c.le (c.bump pos) := by
  unfold DetectionCount.bump DetectionCount.le
  split_ifs <;> simp

theorem DetectionCount.le_refl (c : DetectionCount) : c.le c :=
  ⟨Nat.le_refl _, Nat.le_refl _, Nat.le_refl _⟩

/-- Truncating the appended tail before or after appending makes no
difference once the result is truncated again. -/
theorem take_append_take (cap : Nat) (u v : List α) :
    (u ++ v.take cap).take cap = (u ++ v).take cap := by
  rw [List.take_append_eq_append_take, List.take_append_eq_append_take,
    List.take_take, Nat.min_eq_left (Nat.sub_le _ _)]

/-- Draining a batch into a history that is already within the cap gives
the most recent `cap` alerts, newest first. -/
theorem processAlerts_eq (cap : Nat) (history : List Alert)
    (l : List Alert) (hh : history.length ≤ cap) :
    processAlerts cap history l = (l.reverse ++ history).take cap := by
  induction l generalizing history with
  | nil =>
    simp [processAlerts, List.take_of_length_le hh]
  | cons a t ih =>
    have step : processAlerts cap history (a :: t) =
        processAlerts cap ((a :: history).take cap) t := rfl
    rw [step, ih _ (by simp),
      take_append_take, List.reverse_cons, List.append_assoc]
    rfl

/-- The fold of the enhanced audio for-loop: appends one alert per
observation and bumps the audio counter once per observation. -/
theorem gopro_audio_fold (now : String) (l : List AudioObservation)
    (init : List Alert) (c : DetectionCount) :
    l.foldl (fun acc d => (acc.1 ++ [gopro_audio_alert now d], acc.2.bump "audio"))
        (init, c) =
      (init ++ l.map (gopro_audio_alert now),
       { c with audio := c.audio + l.length }) := by
  induction l generalizing init c with
  | nil => simp
  | cons d t ih =>
    rw [List.foldl_cons, ih, DetectionCount.bump_audio]
    simp [List.append_assoc]
    omega

/-- The two components of `gopro_audio_cycle`: one alert per observation,
and the audio counter advanced by the number of observations. -/
theorem gopro_audio_cycle_eq (now : String) (a : AudioFeatures)
    (c : DetectionCount) :
    gopro_audio_cycle now a c =
      ((AudioDangerDetector.analyze_audio a).1.map (gopro_audio_alert now),
       { c with audio :=
          c.audio + (AudioDangerDetector.analyze_audio a).1.length }) := by
  unfold gopro_audio_cycle
  rw [gopro_audio_fold]
  simp

/-- Exact characterization of the enhanced size classifier: every
comparison in the code is strict, so each breakpoint itself still belongs
to the lower level. -/
theorem enhancedDangerLevel_iff (r : ℚ) :
    (enhancedDangerLevel r = .low ↔ r ≤ 1/10) ∧
    (enhancedDangerLevel r = .medium ↔ 1/10 < r ∧ r ≤ 2/10) ∧
    (enhancedDangerLevel r = .high ↔ 2/10 < r ∧ r ≤ 35/100) ∧
    (enhancedDangerLevel r = .critical ↔ 35/100 < r) := by
  unfold enhancedDangerLevel
  split_ifs with h1 h2 h3 <;>
    refine ⟨?_, ?_, ?_, ?_⟩ <;> simp <;>
    first
      | linarith
      | (intro h h'; linarith)
      | (constructor <;> linarith)
      | (intro h; linarith)

/-- Exact characterization of the basic size classifier. -/
theorem basicDangerLevel_iff (r : ℚ) :
    (basicDangerLevel r = .low ↔ r ≤ 15/100) ∧
    (basicDangerLevel r = .medium ↔ 15/100 < r ∧ r ≤ 3/10) ∧
    (basicDangerLevel r = .high ↔ 3/10 < r) := by
  unfold basicDangerLevel
  split_ifs with h1 h2 <;>
    refine ⟨?_, ?_, ?_⟩ <;> simp <;>
    first
      | linarith
      | (intro h h'; linarith)
      | (constructor <;> linarith)
      | (intro h; linarith)

theorem enhancedDangerLevel_mono (s1 s2 : ℚ) (h : s1 ≤ s2) :
    (enhancedDangerLevel s1).toNat ≤ (enhancedDangerLevel s2).toNat := by
  unfold enhancedDangerLevel
  split_ifs <;> simp [DangerLevel.toNat] <;> linarith

theorem basicDangerLevel_mono (s1 s2 : ℚ) (h : s1 ≤ s2) :
    (basicDangerLevel s1).toNat ≤ (basicDangerLevel s2).toNat := by
  unfold basicDangerLevel
  split_ifs <;> simp [DangerLevel.toNat] <;> linarith

/-- Counter discipline of a guarded pair whose else-branch carries one
alert. -/
theorem cond_single_counts (b : Bool) (a : Alert) (c c' : DetectionCount) :
    ((if b then (([] : List Alert), c) else ([a], c'))).2 =
      if ((if b then (([] : List Alert), c) else ([a], c'))).1.isEmpty then c
      else c' := by
  cases b <;> simp

/-- Counter discipline of a guarded pair whose then-branch carries one
alert. -/
theorem cond_single_counts_then (b : Bool) (a : Alert) (c c' : DetectionCount) :
    ((if b then ([a], c') else (([] : List Alert), c))).2 =
      if ((if b then ([a], c') else (([] : List Alert), c))).1.isEmpty then c
      else c' := by
  cases b <;> simp

/-- Counter discipline of a guarded pair carrying one alert per element of
a list whose emptiness is the guard. -/
theorem cond_map_counts (l : List Danger) (f : Danger → Alert)
    (c c' : DetectionCount) :
    ((if l.isEmpty then (([] : List Alert), c) else (l.map f, c'))).2 =
      if ((if l.isEmpty then (([] : List Alert), c) else (l.map f, c'))).1.isEmpty
      then c else c' := by
  cases l <;> simp

/-- The first component of a guarded pair is nil or the else-branch list. -/
theorem cond_pair_first (b : Bool) (al : List Alert) (c c' : DetectionCount) :
    ((if b then (([] : List Alert), c) else (al, c'))).1 = [] ∨
    ((if b then (([] : List Alert), c) else (al, c'))).1 = al := by
  cases b <;> simp

/-- The basic camera cycle bumps the counter of its position exactly when it
emitted an alert, and leaves the counters alone otherwise. -/
theorem process_camera_cycle_counts (now pos : String) (dangers : List Danger)
    (c : DetectionCount) :
    (process_camera_cycle now pos dangers c).2 =
      if (process_camera_cycle now pos dangers c).1.isEmpty then c
      else c.bump pos := by
  simp only [process_camera_cycle]
  exact cond_single_counts _ _ _ _

/-- The enhanced camera cycle bumps the counter of its position exactly when
it emitted alerts (one bump, however many alerts). -/
theorem process_gopro_camera_cycle_counts (now pos : String)
    (dangers : List Danger) (c : DetectionCount) :
    (process_gopro_camera_cycle now pos dangers c).2 =
      if (process_gopro_camera_cycle now pos dangers c).1.isEmpty then c
      else c.bump pos := by
  simp only [process_gopro_camera_cycle]
  exact cond_map_counts _ _ _ _

/-- The basic audio cycle bumps the audio counter exactly when it emitted
its (single) alert. -/
theorem basic_audio_cycle_counts (now : String) (a : BasicAudioFeatures)
    (c : DetectionCount) :
    (basic_audio_cycle now a c).2 =
      if (basic_audio_cycle now a c).1.isEmpty then c
      else c.bump "audio" := by
  simp only [basic_audio_cycle]
  exact cond_single_counts_then _ _ _ _

/-- The alert list of a basic camera cycle is empty or the single
`vehicle_close` alert at level high. -/
theorem process_camera_cycle_alerts (now pos : String) (dangers : List Danger)
    (c : DetectionCount) :
    (process_camera_cycle now pos dangers c).1 = [] ∨
    (process_camera_cycle now pos dangers c).1 =
      [{ time := now, position := pos, dtype := "vehicle_close",
         level := .high,
         message := "DANGER: Vehicle approaching from " ++ pos ++ "!" }] := by
  simp only [process_camera_cycle]
  exact cond_pair_first _ _ _ _

/-!  Claim theorems. -/

/-- C1 (amended): the enhanced vehicle classifier is the step function over
the breakpoints 0.10, 0.20, 0.35 with every comparison strict, so a
relative size of at most 0.10 maps to low, in (0.10, 0.20] to medium, in
(0.20, 0.35] to high and strictly above 0.35 to critical; a box covering
40 percent of the frame yields critical, one covering 12 percent yields
medium, and every detection processed by `detect_dangers` receives exactly
the level of its relative size `box_area / frame_area`. -/
theorem enhanced_vehicle_classification_breakpoints
    (r mr : ℚ) (f : Frame) (hm : Bool) (dets : List Detection) :
    (enhancedDangerLevel r = .low ↔ r ≤ 1/10) ∧
    (enhancedDangerLevel r = .medium ↔ 1/10 < r ∧ r ≤ 2/10) ∧
    (enhancedDangerLevel r = .high ↔ 2/10 < r ∧ r ≤ 35/100) ∧
    (enhancedDangerLevel r = .critical ↔ 35/100 < r) ∧
    enhancedDangerLevel (40/100) = .critical ∧
    enhancedDangerLevel (12/100) = .medium ∧
    (EnhancedDangerDetector.detect_dangers f hm mr dets).2.map Danger.level =
      dets.map (fun det =>
        enhancedDangerLevel ((det.bbox.w * det.bbox.h : ℚ) /
          (f.height * f.width : ℚ))) := by
  obtain ⟨h1, h2, h3, h4⟩ := enhancedDangerLevel_iff r
  refine ⟨h1, h2, h3, h4,
    (enhancedDangerLevel_iff (40/100)).2.2.2.mpr (by norm_num),
    (enhancedDangerLevel_iff (12/100)).2.1.mpr (by norm_num), ?_⟩
  simp [EnhancedDangerDetector.detect_dangers]

/-- C1 witness: the two concrete examples of the claim, via the claim
theorem. -/
theorem enhanced_vehicle_classification_breakpoints_witness :
    enhancedDangerLevel (40/100) = DangerLevel.critical ∧
    enhancedDangerLevel (12/100) = DangerLevel.medium :=
  ⟨(enhanced_vehicle_classification_breakpoints (40/100) 0 f100 false
      []).2.2.2.2.1,
   (enhanced_vehicle_classification_breakpoints (12/100) 0 f100 false
      []).2.2.2.2.2.1⟩

/-- C1 counterexample: a detection covering exactly 35 percent of the frame
(70 x 50 box in a 100 x 100 frame) has relative size at least 0.35 yet is
classified `high`, not `critical`, because the code compares with a strict
`>`. -/
theorem enhanced_breakpoint_boundary_counterexample :
    (35/100 : ℚ) ≤ relativeSize f100 box70x50 ∧
    (EnhancedDangerDetector.detect_dangers f100 false 0 [det70x50]).2.map
        Danger.level = [DangerLevel.high] ∧
    DangerLevel.high ≠ DangerLevel.critical := by
  refine ⟨?_, ?_, by decide⟩
  · unfold relativeSize f100 box70x50
    norm_num
  · simp only [EnhancedDangerDetector.detect_dangers, det70x50, box70x50, f100,
      List.map_cons, List.map_nil]
    unfold enhancedDangerLevel
    norm_num

/-- C2: after any sequence of insertions starting from the empty history,
the alert history of the basic variant (cap 5) and of the enhanced variant
(cap 3) never exceeds its cap, equals the most recent alerts newest-first,
and each insertion places the new alert at the front while the oldest
entry (the last) is the one evicted. -/
theorem alert_history_bounded_mru (l history : List Alert) (a : Alert) :
    (processAlerts 5 [] l).length ≤ 5 ∧
    processAlerts 5 [] l = l.reverse.take 5 ∧
    (processAlerts 3 [] l).length ≤ 3 ∧
    processAlerts 3 [] l = l.reverse.take 3 ∧
    insertAlert 5 history a = a :: history.take 4 ∧
    insertAlert 3 history a = a :: history.take 2 := by
  have h5 := processAlerts_eq 5 [] l (by simp)
  have h3 := processAlerts_eq 3 [] l (by simp)
  rw [List.append_nil] at h5 h3
  refine ⟨?_, h5, ?_, h3, rfl, rfl⟩
  · rw [h5]; exact List.length_take_le 5 l.reverse
  · rw [h3]; exact List.length_take_le 3 l.reverse

/-- C3 (amended): the camera counters (both variants) and the basic audio
counter advance by exactly one per alert-producing cycle of their source
and are untouched on alert-free cycles; the enhanced audio counter instead
advances once per emitted alert, i.e. by the number of observations of the
chunk; in all cases counters are monotonically non-decreasing. -/
theorem detection_counters_increment_discipline
    (now pos : String) (dangers : List Danger) (ab : BasicAudioFeatures)
    (ae : AudioFeatures) (c : DetectionCount) :
    ((process_camera_cycle now pos dangers c).2 =
      if (process_camera_cycle now pos dangers c).1.isEmpty then c
      else c.bump pos) ∧
    ((process_gopro_camera_cycle now pos dangers c).2 =
      if (process_gopro_camera_cycle now pos dangers c).1.isEmpty then c
      else c.bump pos) ∧
    ((basic_audio_cycle now ab c).2 =
      if (basic_audio_cycle now ab c).1.isEmpty then c
      else c.bump "audio") ∧
    ((gopro_audio_cycle now ae c).2 =
      { c with audio := c.audio + (gopro_audio_cycle now ae c).1.length }) ∧
    c.le (process_camera_cycle now pos dangers c).2 ∧
    c.le (process_gopro_camera_cycle now pos dangers c).2 ∧
    c.le (basic_audio_cycle now ab c).2 ∧
    c.le (gopro_audio_cycle now ae c).2 := by
  have hga := gopro_audio_cycle_eq now ae c
  refine ⟨process_camera_cycle_counts now pos dangers c,
    process_gopro_camera_cycle_counts now pos dangers c,
    basic_audio_cycle_counts now ab c, ?_, ?_, ?_, ?_, ?_⟩
  · rw [hga]
    simp
  · rw [process_camera_cycle_counts now pos dangers c]
    split
    · exact c.le_refl
    · exact c.le_bump pos
  · rw [process_gopro_camera_cycle_counts now pos dangers c]
    split
    · exact c.le_refl
    · exact c.le_bump pos
  · rw [basic_audio_cycle_counts now ab c]
    split
    · exact c.le_refl
    · exact c.le_bump "audio"
  · rw [hga]
    exact ⟨Nat.le_refl _, Nat.le_refl _, Nat.le_add_right _ _⟩

/-- C3 counterexample: an enhanced audio cycle whose chunk crosses all
three thresholds emits alerts (it is alert-producing) and advances the
audio counter by 3, not by 1. -/
theorem gopro_audio_counter_triple_increment :
    (gopro_audio_cycle "t" loudHornSiren countsZero).1 ≠ [] ∧
    (gopro_audio_cycle "t" loudHornSiren countsZero).2.audio = 3 := by
  constructor
  · rw [gopro_audio_cycle_eq]
    norm_num [AudioDangerDetector.analyze_audio, loudHornSiren,
      List.sum_cons, List.sum_nil]
    exact List.cons_ne_nil _ _
  · rw [gopro_audio_cycle_eq]
    norm_num [AudioDangerDetector.analyze_audio, loudHornSiren, countsZero,
      List.sum_cons, List.sum_nil]

/-- C4 (amended, enhanced variant): the enhanced audio analysis checks the
loud-noise, horn-band and siren-band thresholds independently — the
loud_noise observation (level high) is present iff RMS exceeds 0.25, the
horn observation (level critical) iff the horn band is nonempty with
energy above 800, the siren observation (level critical) iff the siren
band is nonempty with energy above 1000 — and the audio cycle turns every
observation into its own alert. -/
theorem enhanced_audio_independent_observations
    (a : AudioFeatures) (now : String) (c : DetectionCount) :
    ((⟨"loud_noise", .high, a.rms⟩ : AudioObservation) ∈
        (AudioDangerDetector.analyze_audio a).1 ↔ a.rms > 25/100) ∧
    ((⟨"horn", .critical, a.hornMags.sum⟩ : AudioObservation) ∈
        (AudioDangerDetector.analyze_audio a).1 ↔
      a.hornMags.length > 0 ∧ a.hornMags.sum > 800) ∧
    ((⟨"siren", .critical, a.sirenMags.sum⟩ : AudioObservation) ∈
        (AudioDangerDetector.analyze_audio a).1 ↔
      a.sirenMags.length > 0 ∧ a.sirenMags.sum > 1000) ∧
    (gopro_audio_cycle now a c).1 =
      (AudioDangerDetector.analyze_audio a).1.map (gopro_audio_alert now) := by
  refine ⟨?_, ?_, ?_, by rw [gopro_audio_cycle_eq]⟩ <;>
    · simp only [AudioDangerDetector.analyze_audio]
      split_ifs <;> simp_all

/-- C4 counterexample: in the basic variant a chunk that crosses both the
loud-noise threshold (RMS 0.4 > 0.3) and the horn threshold (energy
2000 > 1000) produces a single alert, of type horn_detected (the horn
check overwrote the loud-noise result) at level medium — not one alert per
threshold, and at neither level high nor critical. -/
theorem basic_audio_merged_alert_counterexample :
    loudAndHorn.rms > 3/10 ∧
    loudAndHorn.hornMags.sum > 1000 ∧
    (basic_audio_cycle "t" loudAndHorn countsZero).1.map Alert.dtype =
      ["horn_detected"] ∧
    (basic_audio_cycle "t" loudAndHorn countsZero).1.map Alert.level =
      [DangerLevel.medium] := by
  refine ⟨by norm_num [loudAndHorn],
    by norm_num [loudAndHorn, List.sum_cons, List.sum_nil], ?_, ?_⟩ <;>
    norm_num [basic_audio_cycle, basic_analyze_audio, loudAndHorn,
      List.sum_cons, List.sum_nil]

/-- C5 (amended): the display channel is bounded at capacity 10, so a
completed push never takes it beyond its capacity; but a push onto a full
channel blocks the producer (modelled as `none`) rather than dropping a
frame. -/
theorem display_channel_capacity_spec
    (q : List (String × Frame)) (x : String × Frame) :
    (∀ r, Queue.put frame_queue_maxsize q x = some r →
      r.length ≤ frame_queue_maxsize) ∧
    (frame_queue_maxsize ≤ q.length →
      Queue.put frame_queue_maxsize q x = none) := by
  unfold Queue.put frame_queue_maxsize
  constructor
  · intro r hr
    by_cases h : q.length < 10
    · rw [if_pos (Or.inr h)] at hr
      injection hr with hr
      subst hr
      simp only [List.length_append, List.length_cons, List.length_nil]
      omega
    · rw [if_neg (by push_neg; exact ⟨by decide, by omega⟩)] at hr
      exact absurd hr (by simp)
  · intro hle
    rw [if_neg (by push_neg; exact ⟨by decide, by omega⟩)]

/-- C5 witness: a push onto a channel holding one frame completes and the
result respects the capacity, via the claim theorem. -/
theorem display_channel_capacity_spec_witness :
    ([("front", f100)] : List (String × Frame)).length ≤ frame_queue_maxsize :=
  (display_channel_capacity_spec [] ("front", f100)).1 [("front", f100)] rfl

/-- C5 counterexample: a push by a camera worker onto the display channel
already holding its 10-frame capacity blocks the producer (`none`) instead
of dropping a frame and continuing. -/
theorem display_push_blocks_when_full :
    Queue.put frame_queue_maxsize (List.replicate 10 ("front", f100))
      ("rear", f100) = none := by
  decide

/-- C6 (amended): the alert channel is constructed unbounded
(`queue.Queue()`, maxsize 0): every push completes immediately without
ever blocking, and pushing any sequence of alerts delivers exactly that
sequence, in order, to the consumer — no alert is dropped. -/
theorem alert_channel_lossless (q l : List Alert) (a : Alert) :
    Queue.put alert_queue_maxsize q a = some (q ++ [a]) ∧
    Queue.putAll alert_queue_maxsize q l = some (q ++ l) := by
  constructor
  · simp [Queue.put, alert_queue_maxsize]
  · induction l generalizing q with
    | nil => simp [Queue.putAll]
    | cons b t ih =>
      have hstep : Queue.putAll alert_queue_maxsize q (b :: t) =
          Queue.putAll alert_queue_maxsize (q ++ [b]) t := by
        simp [Queue.putAll, Queue.put, alert_queue_maxsize]
      rw [hstep, ih]
      simp

/-- C6 counterexample: the alert channel is created with maxsize 0 — the
Python convention for an infinite queue — so it has no finite capacity: a
push onto it succeeds even when it already holds 1000 alerts (far beyond
any configured bound such as the display channel capacity of 10). -/
theorem alert_channel_unbounded_counterexample :
    alert_queue_maxsize = 0 ∧
    Queue.put alert_queue_maxsize (List.replicate 1000 sampleAlert)
      sampleAlert = some (List.replicate 1000 sampleAlert ++ [sampleAlert]) :=
  ⟨rfl, rfl⟩

/-- C7 (amended): the classification step of both variants is
deterministic — the observation list depends only on the frame dimensions
and the detected boxes (in the enhanced variant not even on the
motion-detector inputs), so two frames of equal dimensions yield equal
observations — but neither `detect_dangers` leaves its input frame
unchanged: whenever there is at least one detection each draws onto the
frame, and the returned frame differs from the input. -/
theorem detect_dangers_pure_classification_impure_frame
    (f g : Frame) (cars : List BBox) (dets : List Detection)
    (hm1 hm2 : Bool) (mr1 mr2 : ℚ)
    (hh : f.height = g.height) (hw : f.width = g.width) :
    (CameraDangerDetector.detect_dangers f cars).2 =
      (CameraDangerDetector.detect_dangers g cars).2 ∧
    (cars ≠ [] → (CameraDangerDetector.detect_dangers f cars).1 ≠ f) ∧
    (EnhancedDangerDetector.detect_dangers f hm1 mr1 dets).2 =
      (EnhancedDangerDetector.detect_dangers g hm2 mr2 dets).2 ∧
    (dets ≠ [] →
      (EnhancedDangerDetector.detect_dangers f hm1 mr1 dets).1 ≠ f) := by
  refine ⟨?_, ?_, ?_, ?_⟩
  · simp [CameraDangerDetector.detect_dangers, relativeSize, hh, hw]
  · intro hc heq
    have hov := congrArg Frame.overlays heq
    simp only [CameraDangerDetector.detect_dangers] at hov
    have hlen := congrArg List.length hov
    simp only [List.length_append, List.length_map] at hlen
    exact hc (List.length_eq_zero.mp (by omega))
  · simp [EnhancedDangerDetector.detect_dangers, hh, hw]
  · intro hd heq
    have hov := congrArg Frame.overlays heq
    simp only [EnhancedDangerDetector.detect_dangers] at hov
    have hlen := congrArg List.length hov
    simp only [List.length_append, List.length_map] at hlen
    exact hd (List.length_eq_zero.mp (by omega))

/-- C7 witness: for each variant, two frames with equal dimensions but
different buffers (and, in the enhanced variant, different motion-detector
inputs) yield the same observations, and the frame with one detection
comes back changed, via the claim theorem. -/
theorem detect_dangers_pure_classification_impure_frame_witness :
    (CameraDangerDetector.detect_dangers f100 [box50]).2 =
      (CameraDangerDetector.detect_dangers f100marked [box50]).2 ∧
    (CameraDangerDetector.detect_dangers f100 [box50]).1 ≠ f100 ∧
    (EnhancedDangerDetector.detect_dangers f100 true (1/10) [det70x50]).2 =
      (EnhancedDangerDetector.detect_dangers f100marked false 0 [det70x50]).2 ∧
    (EnhancedDangerDetector.detect_dangers f100 true (1/10) [det70x50]).1 ≠
      f100 :=
  ⟨(detect_dangers_pure_classification_impure_frame f100 f100marked [box50]
      [det70x50] true false (1/10) 0 rfl rfl).1,
   (detect_dangers_pure_classification_impure_frame f100 f100marked [box50]
      [det70x50] true false (1/10) 0 rfl rfl).2.1 (by decide),
   (detect_dangers_pure_classification_impure_frame f100 f100marked [box50]
      [det70x50] true false (1/10) 0 rfl rfl).2.2.1,
   (detect_dangers_pure_classification_impure_frame f100 f100marked [box50]
      [det70x50] true false (1/10) 0 rfl rfl).2.2.2 (by decide)⟩

/-- C7 counterexample: running either `detect_dangers` on a clean
100 x 100 frame with one detection returns a frame different from the
input — the bounding box and label were drawn onto it, so the input is not
left unchanged by the classification step. -/
theorem detect_dangers_mutates_frame :
    (CameraDangerDetector.detect_dangers f100 [box50]).1 ≠ f100 ∧
    (EnhancedDangerDetector.detect_dangers f100 false 0 [det70x50]).1 ≠
      f100 := by
  constructor
  · intro h
    have hov := congrArg Frame.overlays h
    simp only [CameraDangerDetector.detect_dangers] at hov
    have hlen := congrArg List.length hov
    simp only [List.length_append, List.length_map] at hlen
    simp [f100] at hlen
  · intro h
    have hov := congrArg Frame.overlays h
    simp only [EnhancedDangerDetector.detect_dangers] at hov
    have hlen := congrArg List.length hov
    simp only [List.length_append, List.length_map] at hlen
    simp [f100] at hlen

/-- C8 (amended): in the basic variant a failed read ends that worker
alone (its loop processes nothing further, then releases the capture); in
the enhanced variant a failed read does not end the loop — the worker
sleeps 0.1 s and retries, continuing with the remaining reads.  Successful
reads are processed one frame per iteration in both variants. -/
theorem worker_read_failure_spec (rest : List ReadResult) (f : Frame) :
    basicWorkerFrames (ReadResult.fail :: rest) = [] ∧
    goproWorkerFrames (ReadResult.fail :: rest) = goproWorkerFrames rest ∧
    basicWorkerFrames (ReadResult.ok f :: rest) = f :: basicWorkerFrames rest ∧
    goproWorkerFrames (ReadResult.ok f :: rest) =
      f :: goproWorkerFrames rest :=
  ⟨rfl, rfl, rfl, rfl⟩

/-- C8 counterexample: after a failed read the enhanced worker still
processes the next frame — its loop did not end — while the basic worker
stops. -/
theorem gopro_worker_retries_after_failed_read :
    goproWorkerFrames [ReadResult.fail, ReadResult.ok f100] = [f100] ∧
    basicWorkerFrames [ReadResult.fail, ReadResult.ok f100] = [] :=
  ⟨rfl, rfl⟩

/-- C9: classification is a deterministic monotonic step function of the
relative size: for any two sizes s1 ≤ s2, the level assigned to s1 is at
most the level assigned to s2 in the order low < medium < high < critical,
in both the enhanced and the basic variant. -/
theorem classification_monotone_in_size (s1 s2 : ℚ) (h : s1 ≤ s2) :
    (enhancedDangerLevel s1).toNat ≤ (enhancedDangerLevel s2).toNat ∧
    (basicDangerLevel s1).toNat ≤ (basicDangerLevel s2).toNat :=
  ⟨enhancedDangerLevel_mono s1 s2 h, basicDangerLevel_mono s1 s2 h⟩

/-- C9 witness: monotonicity at the concrete pair 0 ≤ 1, via the claim
theorem. -/
theorem classification_monotone_in_size_witness :
    (0 : ℚ) ≤ 1 ∧
    ((enhancedDangerLevel 0).toNat ≤ (enhancedDangerLevel 1).toNat ∧
     (basicDangerLevel 0).toNat ≤ (basicDangerLevel 1).toNat) :=
  ⟨by norm_num, classification_monotone_in_size 0 1 (by norm_num)⟩

/-- C10: the basic classifier only ever produces low, medium or high —
high above 0.3, medium above 0.15, low otherwise — never critical, and
every alert emitted by a basic camera cycle carries level high. -/
theorem basic_classifier_never_critical
    (r : ℚ) (now pos : String) (dangers : List Danger) (c : DetectionCount) :
    basicDangerLevel r ≠ .critical ∧
    (basicDangerLevel r = .high ↔ 3/10 < r) ∧
    (basicDangerLevel r = .medium ↔ 15/100 < r ∧ r ≤ 3/10) ∧
    (basicDangerLevel r = .low ↔ r ≤ 15/100) ∧
    (∀ a, a ∈ (process_camera_cycle now pos dangers c).1 →
      a.level = DangerLevel.high) := by
  obtain ⟨hl, hm, hh⟩ := basicDangerLevel_iff r
  refine ⟨?_, hh, hm, hl, ?_⟩
  · unfold basicDangerLevel
    split_ifs <;> simp
  · intro a ha
    rcases process_camera_cycle_alerts now pos dangers c with hE | hE <;>
      rw [hE] at ha
    · simp at ha
    · rw [List.mem_singleton] at ha
      subst ha
      rfl

/-- C10 witness: a basic camera cycle over one high danger emits the
front-vehicle alert and that alert carries level high, via the claim
theorem. -/
theorem basic_classifier_never_critical_witness :
    frontVehicleAlert.level = DangerLevel.high :=
  (basic_classifier_never_critical 0 "t" "front" [highDanger]
    countsZero).2.2.2.2 frontVehicleAlert (by decide)

end CycleSafe
